import Mathlib

/-
Formal model of the WayfinderKiosk service layer.

The definitions below are a shallow embedding of the TypeScript sources:
  - WayfinderService (SDK loading, map-instance lifecycle, waitForInstance,
    destroy, restoreInitialState) from src/services/WayfinderService.ts
  - GateFinderService (findGate, getRouteToGate, getAllGates,
    parseFlightNumber) from src/services/GateFinderService.ts
  - DirectoryService (getPOIsByCategory and its cache) from
    src/services/DirectoryService.ts
  - BCBPParser.parse from src/services/BarcodeScannerService.ts

Asynchronous effects are modelled by explicit state passing: a call sequence
is a list of call descriptors (each carrying the outcome of the external SDK
operations it performs), and each call is a function from service state to
service state plus a list of observable events.  Promises are modelled by
numeric identifiers together with settlement bookkeeping.
-/

namespace Wayfinder

/-
Part 1: WayfinderService.loadSDK (SDK script loading).

Source behavior (WayfinderService.loadSDK):
  - if `this.LMInit` is set, return it (already loaded);
  - else if `this.sdkLoadPromise` is set, return that same promise object;
  - else start a fresh dynamic import, store its promise in
    `this.sdkLoadPromise`, and return it.
On success the inner async function sets `this.LMInit`; on failure it throws,
leaving `this.sdkLoadPromise` holding the (now rejected) promise.  Nothing in
the class ever resets `sdkLoadPromise`.
-/

/-- State of the loadSDK machinery: the cached `LMInit` handle flag, the
cached load-promise slot, settlement bookkeeping for load promises, a count
of underlying dynamic-import fetches started, and a fresh-id counter. -/
structure SDKLoadState where
  lmInit : Bool
  sdkLoadPromise : Option Nat
  resolvedLoads : List Nat
  rejectedLoads : List Nat
  fetchCount : Nat
  nextPromiseId : Nat
deriving DecidableEq, Repr

/-- Fresh service state: nothing loaded, no promise cached, no fetch yet. -/
def initialLoadState : SDKLoadState :=
  ⟨false, none, [], [], 0, 0⟩

/-- Value handed back to a loadSDK caller: either the already-cached handle
(the `this.LMInit` early return) or a promise object identified by id. -/
inductive LoadRet where
  | cachedHandle
  | promise (p : Nat)
deriving DecidableEq, Repr

/-- One call to `loadSDK()`, translated from the source: return the cached
handle if present, else the cached in-flight/settled promise, else start a
new fetch and cache its promise. -/
def loadSDKCall (s : SDKLoadState) : LoadRet × SDKLoadState :=
  if s.lmInit then
    (.cachedHandle, s)
  else
    match s.sdkLoadPromise with
    | some p => (.promise p, s)
    | none =>
        let p := s.nextPromiseId
        (.promise p,
          { s with
            sdkLoadPromise := some p
            fetchCount := s.fetchCount + 1
            nextPromiseId := p + 1 })

/-- Settlement of the in-flight SDK import: on success the inner async
function sets `this.LMInit` and the promise resolves; on failure the promise
rejects.  In both cases `sdkLoadPromise` keeps holding the settled promise,
because the source never clears the slot.  Settling an already-settled
promise is a no-op (JS promise semantics). -/
def settleLoad (ok : Bool) (s : SDKLoadState) : SDKLoadState :=
  match s.sdkLoadPromise with
  | none => s
  | some p =>
      if p ∈ s.resolvedLoads ∨ p ∈ s.rejectedLoads then s
      else if ok then
        { s with lmInit := true, resolvedLoads := p :: s.resolvedLoads }
      else
        { s with rejectedLoads := p :: s.rejectedLoads }

/-- Repeated `loadSDK()` calls with no settlement in between, collecting the
value returned to each caller. -/
def runLoadCalls : Nat → SDKLoadState → List LoadRet × SDKLoadState
  | 0, s => ([], s)
  | n + 1, s =>
      let (r, s1) := loadSDKCall s
      let (rs, s2) := runLoadCalls n s1
      (r :: rs, s2)

/-
Part 2: WayfinderService map-instance lifecycle (init, destroy,
waitForInstance).

Source behavior (WayfinderService.init / destroy / waitForInstance):
  - init(container): if `this.instance` exists, call destroy() first; then
    `await this.loadSDK()` (NOT inside the try block); then
    `await LMInit.newMap(...)` inside a try block.  On newMap success it
    stores the instance, wires events, resolves a pending
    `instanceDeferred` if present (without clearing the slot), and returns.
    On newMap failure it rejects a pending `instanceDeferred` if present,
    clears the slot, and rethrows.  A loadSDK failure propagates out of
    init before the try block, touching neither the deferred promise nor
    the slot.
  - destroy(): if an instance exists, best-effort fire a destroy command at
    the widget (widget-side errors swallowed), clear `this.instance`, and
    reset `this.instanceDeferred` to null.
  - waitForInstance(): if an instance exists, resolve immediately with it;
    otherwise return (lazily creating) the shared deferred promise.
-/

/-- Observable widget-lifetime events: construction of a new external widget
instance by `LMInit.newMap`, and teardown of a widget by `destroy`. -/
inductive WEvent where
  | create (w : Nat)
  | destroyW (w : Nat)
deriving DecidableEq, Repr

/-- State of the map-session manager: the cached SDK flags (shared with the
loadSDK machinery), the current widget instance (`this.instance`), the
deferred slot for waitForInstance (`this.instanceDeferred`), settlement
bookkeeping for deferred promises, and fresh-id counters. -/
structure WFState where
  lmInit : Bool
  sdkFailed : Bool
  inst : Option Nat
  nextWidget : Nat
  deferredSlot : Option Nat
  nextPromiseId : Nat
  resolvedWaits : List Nat
  rejectedWaits : List Nat
deriving DecidableEq, Repr

/-- Fresh manager state. -/
def initialWFState : WFState :=
  ⟨false, false, none, 0, none, 0, [], []⟩

/-- One call to `destroy()`: if an instance exists, emit its teardown event,
clear the instance, and reset the deferred slot; otherwise do nothing. -/
def destroyCall (s : WFState) : WFState × List WEvent :=
  match s.inst with
  | none => (s, [])
  | some w => ({ s with inst := none, deferredSlot := none }, [.destroyW w])

/-- Result of one `init(container)` call: the post state, the widget events
it produced, and whether the returned promise resolved (`ok = true`) or
rejected. -/
structure InitOutcome where
  state : WFState
  events : List WEvent
  ok : Bool
deriving DecidableEq, Repr

/-- Mark a deferred promise resolved, if it is still pending (resolving a
settled JS promise is a no-op). -/
def resolveWait (p : Nat) (s : WFState) : WFState :=
  if p ∈ s.resolvedWaits ∨ p ∈ s.rejectedWaits then s
  else { s with resolvedWaits := p :: s.resolvedWaits }

/-- Mark a deferred promise rejected, if it is still pending. -/
def rejectWait (p : Nat) (s : WFState) : WFState :=
  if p ∈ s.resolvedWaits ∨ p ∈ s.rejectedWaits then s
  else { s with rejectedWaits := p :: s.rejectedWaits }

/-- One call to `init(container)`, run to completion.  `sdkOk` is the
outcome of a fresh SDK import, should one be started; `mapOk` is the outcome
of `LMInit.newMap`.  The translation follows the source line by line: the
conditional destroy, then loadSDK (whose failure bypasses the try block and
leaves the deferred slot untouched), then newMap with the success and
failure continuations described above. -/
def initCall (sdkOk mapOk : Bool) (s : WFState) : InitOutcome :=
  let ds := destroyCall s
  let s1 := ds.1
  let ev1 := ds.2
  if s1.lmInit ∨ (!s1.sdkFailed && sdkOk) then
    let s2 := { s1 with lmInit := true }
    if mapOk then
      let w := s2.nextWidget
      let s3 := { s2 with inst := some w, nextWidget := w + 1 }
      let s4 :=
        match s3.deferredSlot with
        | some p => resolveWait p s3
        | none => s3
      ⟨s4, ev1 ++ [.create w], true⟩
    else
      let s3 :=
        match s2.deferredSlot with
        | some p => { rejectWait p s2 with deferredSlot := none }
        | none => s2
      ⟨s3, ev1, false⟩
  else
    ⟨{ s1 with sdkFailed := true }, ev1, false⟩

/-- Value handed back to a `waitForInstance()` caller: the live instance
(immediate resolution) or the shared deferred promise. -/
inductive WaitRet where
  | ready (w : Nat)
  | pendingP (p : Nat)
deriving DecidableEq, Repr

/-- One call to `waitForInstance()`: immediate if an instance exists,
otherwise return the (lazily created) shared deferred promise. -/
def waitCall (s : WFState) : WaitRet × WFState :=
  match s.inst with
  | some w => (.ready w, s)
  | none =>
      match s.deferredSlot with
      | some p => (.pendingP p, s)
      | none =>
          (.pendingP s.nextPromiseId,
            { s with
              deferredSlot := some s.nextPromiseId
              nextPromiseId := s.nextPromiseId + 1 })

/-- A call descriptor for a sequential run against the manager: each init
carries the outcomes of the external operations it performs. -/
inductive WCall where
  | initC (sdkOk mapOk : Bool)
  | destroyC
  | waitC
deriving DecidableEq, Repr

/-- Dispatch one call, keeping the post state and the emitted events. -/
def callStep (c : WCall) (s : WFState) : WFState × List WEvent :=
  match c with
  | .initC sdkOk mapOk =>
      let r := initCall sdkOk mapOk s
      (r.state, r.events)
  | .destroyC => destroyCall s
  | .waitC => ((waitCall s).2, [])

/-- Run a sequence of calls from a given state, concatenating the emitted
event traces. -/
def runWF : List WCall → WFState → WFState × List WEvent
  | [], s => (s, [])
  | c :: cs, s =>
      let r1 := callStep c s
      let r2 := runWF cs r1.1
      (r2.1, r1.2 ++ r2.2)

/-- Update the set of live (constructed, not yet destroyed) widgets by one
event. -/
def liveStep (cur : List Nat) : WEvent → List Nat
  | .create w => w :: cur
  | .destroyW w => cur.erase w

/-- Check that, starting from live-widget set `cur`, every point of the
event trace has at most one live widget. -/
def boundedTrace (cur : List Nat) : List WEvent → Bool
  | [] => true
  | e :: es =>
      let cur2 := liveStep cur e
      decide (cur2.length ≤ 1) && boundedTrace cur2 es

/-- List view of the instance slot: the widgets the manager holds live. -/
def optList : Option Nat → List Nat
  | none => []
  | some w => [w]

@[simp]
theorem resolveWait_inst (p : Nat) (s : WFState) :
    (resolveWait p s).inst = s.inst := by
  unfold resolveWait; split <;> rfl

@[simp]
theorem rejectWait_inst (p : Nat) (s : WFState) :
    (rejectWait p s).inst = s.inst := by
  unfold rejectWait; split <;> rfl

theorem boundedTrace_append (t u : List WEvent) :
    ∀ cur, boundedTrace cur (t ++ u) =
      (boundedTrace cur t && boundedTrace (t.foldl liveStep cur) u) := by
  induction t with
  | nil => intro cur; simp [boundedTrace]
  | cons e es ih =>
      intro cur
      simp [boundedTrace, ih, Bool.and_assoc]

theorem callStep_live (c : WCall) (s : WFState) :
    boundedTrace (optList s.inst) (callStep c s).2 = true ∧
      (callStep c s).2.foldl liveStep (optList s.inst) =
        optList (callStep c s).1.inst := by
  cases c with
  | initC sdkOk mapOk =>
      cases h : s.inst with
      | none =>
          cases hd : s.deferredSlot <;>
            by_cases h1 : (s.lmInit = true ∨ (s.sdkFailed = false ∧ sdkOk = true)) <;>
              by_cases h2 : mapOk = true <;>
                simp [callStep, initCall, destroyCall, h, hd, h1, h2,
                  boundedTrace, liveStep, optList]
      | some w =>
          by_cases h1 : (s.lmInit = true ∨ (s.sdkFailed = false ∧ sdkOk = true)) <;>
            by_cases h2 : mapOk = true <;>
              simp [callStep, initCall, destroyCall, h, h1, h2,
                boundedTrace, liveStep, optList, List.erase_cons]
  | destroyC =>
      cases h : s.inst <;>
        simp [callStep, destroyCall, h, boundedTrace, liveStep, optList,
          List.erase_cons]
  | waitC =>
      cases h : s.inst <;>
        cases hd : s.deferredSlot <;>
          simp [callStep, waitCall, h, hd, boundedTrace, optList]

theorem runWF_bounded (cs : List WCall) :
    ∀ s, boundedTrace (optList s.inst) (runWF cs s).2 = true := by
  induction cs with
  | nil => intro s; simp [runWF, boundedTrace]
  | cons c cs ih =>
      intro s
      have h := callStep_live c s
      simp only [runWF, boundedTrace_append, h.1, Bool.true_and]
      rw [h.2]
      exact ih _

theorem runLoadCalls_steady (p : Nat) :
    ∀ (n : Nat) (s : SDKLoadState), s.lmInit = false →
      s.sdkLoadPromise = some p →
      runLoadCalls n s = (List.replicate n (LoadRet.promise p), s) := by
  intro n
  induction n with
  | zero => intro s _ _; simp [runLoadCalls]
  | succ n ih =>
      intro s h1 h2
      have hcall : loadSDKCall s = (LoadRet.promise p, s) := by
        simp [loadSDKCall, h1, h2]
      simp [runLoadCalls, hcall, ih s h1 h2, List.replicate_succ]

/-- C4: any number of loadSDK calls made before the first one settles start
exactly one underlying SDK fetch, every caller receives the very same
pending promise, and that single shared promise is the one that later
resolves (on success) or rejects (on failure), so all callers share the same
outcome. -/
theorem loadSDK_single_flight_shared_promise (n : Nat) :
    (runLoadCalls (n + 1) initialLoadState).1 =
        List.replicate (n + 1) (LoadRet.promise 0) ∧
      (runLoadCalls (n + 1) initialLoadState).2.fetchCount = 1 ∧
      (runLoadCalls (n + 1) initialLoadState).2.sdkLoadPromise = some 0 ∧
      ∀ ok : Bool,
        (settleLoad ok (runLoadCalls (n + 1) initialLoadState).2).resolvedLoads
            = (if ok then [0] else []) ∧
        (settleLoad ok (runLoadCalls (n + 1) initialLoadState).2).rejectedLoads
            = (if ok then [] else [0]) := by
  have h1 : loadSDKCall initialLoadState =
      (LoadRet.promise 0, ⟨false, some 0, [], [], 1, 1⟩) := by
    simp [loadSDKCall, initialLoadState]
  have h2 := runLoadCalls_steady 0 n ⟨false, some 0, [], [], 1, 1⟩ rfl rfl
  have hrun : runLoadCalls (n + 1) initialLoadState =
      (List.replicate (n + 1) (LoadRet.promise 0),
        ⟨false, some 0, [], [], 1, 1⟩) := by
    simp [runLoadCalls, h1, h2, List.replicate_succ]
  refine ⟨by rw [hrun], by rw [hrun], by rw [hrun], ?_⟩
  intro ok
  rw [hrun]
  cases ok <;> simp [settleLoad]

/-- C3 (code bug evidence): after a failed SDK load the rejected promise
stays cached in `sdkLoadPromise`, so a second loadSDK call returns the very
same rejected promise and starts no fresh fetch — the manager is not able to
retry on the next call, contradicting the documented retry semantics. -/
theorem loadSDK_failure_not_retryable :
    (loadSDKCall initialLoadState).1 = LoadRet.promise 0 ∧
      (settleLoad false (loadSDKCall initialLoadState).2).rejectedLoads = [0] ∧
      (loadSDKCall (settleLoad false (loadSDKCall initialLoadState).2)).1 =
        LoadRet.promise 0 ∧
      (loadSDKCall (settleLoad false (loadSDKCall initialLoadState).2)).2 =
        settleLoad false (loadSDKCall initialLoadState).2 ∧
      (loadSDKCall (settleLoad false (loadSDKCall initialLoadState).2)).2.fetchCount
        = 1 := by
  decide

/-- C1: over every sequential run of init, destroy and waitForInstance calls
(each with arbitrary SDK-load and instance-construction outcomes), at every
point of the emitted widget-lifetime trace at most one external widget
instance is live: an init that finds an existing instance tears it down
before the new instance is constructed, so two live instances never
coexist. -/
theorem single_live_widget_instance (cs : List WCall) :
    boundedTrace [] (runWF cs initialWFState).2 = true :=
  runWF_bounded cs initialWFState

/-- C2 counterexample: a waiter obtains the deferred promise, then an init
call fails during the SDK-load stage; that init settles (rejects) while the
pending waitForInstance promise is neither rejected nor resolved and the
pending-promise slot is not cleared — contradicting the claim that every
failed init rejects the pending promise and clears the slot. -/
theorem failed_init_leaves_waiter_pending_cex :
    ((initCall false true (waitCall initialWFState).2).ok = false) ∧
      (initCall false true (waitCall initialWFState).2).state.deferredSlot
        = some 0 ∧
      (initCall false true (waitCall initialWFState).2).state.rejectedWaits
        = [] ∧
      (initCall false true (waitCall initialWFState).2).state.resolvedWaits
        = [] := by
  decide

/-- C2 (amended): an init call that fails at the instance-construction
(newMap) stage rejects a pending waitForInstance promise and clears the
pending-promise slot; an init call that fails at the SDK-load stage settles
(rejects) for its own caller but leaves the pending waitForInstance promise
unsettled and the slot unchanged. -/
theorem init_failure_waiter_semantics (s : WFState) (p : Nat)
    (sdkOk mapOk : Bool) (hinst : s.inst = none)
    (hslot : s.deferredSlot = some p)
    (hpend : p ∉ s.resolvedWaits ∧ p ∉ s.rejectedWaits) :
    ((s.lmInit = true ∨ (s.sdkFailed = false ∧ sdkOk = true)) →
      (initCall sdkOk false s).ok = false ∧
        (initCall sdkOk false s).state.deferredSlot = none ∧
        p ∈ (initCall sdkOk false s).state.rejectedWaits) ∧
    ((s.lmInit = false ∧ (s.sdkFailed = true ∨ sdkOk = false)) →
      (initCall sdkOk mapOk s).ok = false ∧
        (initCall sdkOk mapOk s).state.deferredSlot = some p ∧
        (initCall sdkOk mapOk s).state.rejectedWaits = s.rejectedWaits) := by
  constructor
  · intro hload
    simp [initCall, destroyCall, hinst, hslot, hload, rejectWait,
      hpend.1, hpend.2]
  · rintro ⟨hlm, hfail⟩
    have hcond : ¬ (s.lmInit = true ∨ (s.sdkFailed = false ∧ sdkOk = true)) := by
      rcases hfail with h | h <;> simp [hlm, h]
    simp [initCall, destroyCall, hinst, hslot, hcond]

/-- C2 witness: the amended theorem applied at a concrete state with a
pending waiter and a newMap-stage failure. -/
theorem init_failure_waiter_semantics_witness :
    (initCall true false ⟨true, false, none, 0, some 5, 6, [], []⟩).state.deferredSlot
        = none ∧
      5 ∈ (initCall true false
        ⟨true, false, none, 0, some 5, 6, [], []⟩).state.rejectedWaits :=
  ⟨((init_failure_waiter_semantics ⟨true, false, none, 0, some 5, 6, [], []⟩
      5 true false rfl rfl (by decide)).1 (Or.inl rfl)).2.1,
    ((init_failure_waiter_semantics ⟨true, false, none, 0, some 5, 6, [], []⟩
      5 true false rfl rfl (by decide)).1 (Or.inl rfl)).2.2⟩

/-
Part 3: WayfinderService.restoreInitialState.

Source behavior: with no instance, do nothing.  With an instance, read
`initialMapState` from the kiosk store; if present, issue
`fire('setState', ...)` with it; if absent, only log a warning — no widget
command of any kind is issued.
-/

/-- Widget commands that the model tracks: the state-restore command
`fire('setState', token)` and the generic reset-view command (part of the
SDK command vocabulary; the source never issues it). -/
inductive MapCmd where
  | fireSetState (tok : String)
  | resetView
deriving DecidableEq, Repr

/-- Translation of `restoreInitialState()`: the list of widget commands the
call issues, given the instance slot and the saved initial-map-state token
from the kiosk store. -/
def restoreInitialState (inst : Option Nat) (initialMapState : Option String) :
    List MapCmd :=
  match inst with
  | none => []
  | some _ =>
      match initialMapState with
      | some tok => [.fireSetState tok]
      | none => []

/-- C6 counterexample: with a live session and no configured home-state
token, restoreInitialState issues no widget command at all — in particular
it does not fall back to the generic reset-view command, contradicting the
claimed fallback. -/
theorem restore_no_reset_fallback_cex :
    restoreInitialState (some 0) none = [] ∧
      MapCmd.resetView ∉ restoreInitialState (some 0) none := by
  decide

/-- C6 (amended): with a live session, restoreInitialState issues the
state-restore command when a home-state token exists, and issues no command
(only a logged warning) when no token exists; with no session it issues
nothing. -/
theorem restore_state_semantics :
    (∀ (w : Nat) (tok : String),
      restoreInitialState (some w) (some tok) = [MapCmd.fireSetState tok]) ∧
      (∀ w : Nat, restoreInitialState (some w) none = []) ∧
      (∀ t : Option String, restoreInitialState none t = []) := by
  refine ⟨fun w tok => rfl, fun w => rfl, fun t => ?_⟩
  cases t <;> rfl

/-
Part 4: GateFinderService (findGate, getRouteToGate, getAllGates).

Source behavior (GateFinderService):
  - findGate(gateNumber): throws "Map instance not initialized" when
    `wayfinderService.getInstance()` is null.  Otherwise normalizes the
    gate number (strip whitespace and hyphens, uppercase), builds the
    query list [`Gate raw`, `Gate normalized`, raw, normalized], and loops
    over it SEQUENTIALLY: each iteration awaits `map.search(query, true)`
    and returns the first result that is a gate match; only if a query
    yields no match is the next query issued.  Returns null after all four
    queries miss; a search error is caught and rethrown as
    "Failed to find gate: ...".
  - getRouteToGate(gateId, accessible): same instance guard, then requests
    directions from the kiosk location to the gate POI.
  - getAllGates(): same instance guard, then searches "gate", filters to
    POIs whose category mentions "gate", and sorts by the first number
    found in the name with alphabetical tiebreak.
-/

/-- ASCII whitespace as matched by the JS `\s` class (and trimmed by
`String.prototype.trim`) on the ASCII range. -/
def jsIsSpace (c : Char) : Bool :=
  c == ' ' || c == '\t' || c == '\n' || c == '\r' || c == '\x0b' || c == '\x0c'

/-- ASCII decimal digits, the characters matched by the JS `\d` class and
accepted by `parseInt(_, 10)`. -/
def isDigitChar (c : Char) : Bool :=
  c == '0' || c == '1' || c == '2' || c == '3' || c == '4' ||
    c == '5' || c == '6' || c == '7' || c == '8' || c == '9'

/-- Check whether `pat` occurs as a contiguous substring of `s`
(JS `String.prototype.includes`). -/
def hasInfix (s pat : List Char) : Bool :=
  pat.isPrefixOf s ||
    match s with
    | [] => false
    | _ :: t => hasInfix t pat

/-- String wrapper for substring containment. -/
def strContains (s pat : String) : Bool :=
  hasInfix s.data pat.data

/-- ASCII lowercase of a string (JS `toLowerCase` on the ASCII range). -/
def strToLower (s : String) : String :=
  String.mk (s.data.map Char.toLower)

/-- Gate-number normalization from the source:
`gateNumber.replace(/[\s-]/g, '').toUpperCase()`. -/
def normalizeGate (g : String) : String :=
  String.mk ((g.data.filter (fun c => !(jsIsSpace c || c == '-'))).map
    Char.toUpper)

/-- Point of interest as the gate finder sees it (SDKPOI fields used by the
modelled operations). -/
structure POI where
  name : String
  category : Option String
  floorId : String
deriving DecidableEq, Repr

/-- Gate-match predicate from the source: the category mentions "gate"
(case-insensitively), or the normalized name contains the normalized gate
token (or "GATE" followed by it). -/
def gateMatches (normalizedGate : String) (poi : POI) : Bool :=
  (match poi.category with
   | some c => strContains (strToLower c) "gate"
   | none => false) ||
    (let poiName := normalizeGate poi.name
     strContains poiName normalizedGate ||
       strContains poiName ("GATE" ++ normalizedGate))

/-- Location argument of the directions API: explicit coordinates with a
floor, or a POI reference. -/
inductive SDKLocation where
  | position (lat lng : Rat) (floorId : String)
  | byPoi (poiId : String)
deriving DecidableEq, Repr

/-- Route summary returned by the directions API. -/
structure SDKDirections where
  etaSeconds : Int
  distanceMeters : Int
  steps : List String
deriving DecidableEq, Repr

/-- Fixed kiosk reference location (configuration). -/
structure KioskLocation where
  lat : Rat
  lng : Rat
  floorId : String
deriving DecidableEq, Repr

/-- Black-box map instance as the gate finder uses it: the text-search and
directions capabilities, each of which may fail. -/
structure MapInst where
  search : String → Except Unit (List POI)
  getDirections : SDKLocation → SDKLocation → Bool → Except Unit SDKDirections

/-- Sequential query loop inside findGate: issue each query in order,
stopping at the first query whose results contain a gate match.  Returns
the outcome together with the list of queries actually issued. -/
def findGateLoop (search : String → Except Unit (List POI))
    (normalizedGate : String) :
    List String → Except Unit (Option POI) × List String
  | [] => (.ok none, [])
  | q :: qs =>
      match search q with
      | .error e => (.error e, [q])
      | .ok results =>
          match results.find? (gateMatches normalizedGate) with
          | some poi => (.ok (some poi), [q])
          | none =>
              let r := findGateLoop search normalizedGate qs
              (r.1, q :: r.2)

/-- Translation of `findGate(gateNumber)`: the instance guard, the query
variants, and the sequential first-match loop.  The second component is
the trace of search queries issued against the map instance. -/
def findGate (inst : Option MapInst) (gateNumber : String) :
    Except String (Option POI) × List String :=
  match inst with
  | none => (.error "Map instance not initialized", [])
  | some m =>
      let normalizedGate := normalizeGate gateNumber
      let queries := ["Gate " ++ gateNumber, "Gate " ++ normalizedGate,
        gateNumber, normalizedGate]
      match findGateLoop m.search normalizedGate queries with
      | (.error _, issued) =>
          (.error ("Failed to find gate: " ++ gateNumber), issued)
      | (.ok r, issued) => (.ok r, issued)

/-- Translation of `getRouteToGate(gateId, accessible)`. -/
def getRouteToGate (inst : Option MapInst) (kiosk : KioskLocation)
    (gateId : String) (accessible : Bool) : Except String SDKDirections :=
  match inst with
  | none => .error "Map instance not initialized"
  | some m =>
      match m.getDirections (.position kiosk.lat kiosk.lng kiosk.floorId)
          (.byPoi gateId) accessible with
      | .ok d => .ok d
      | .error _ => .error ("Failed to get route to gate: " ++ gateId)

/-- First maximal run of digits in a character list (JS `name.match(/\d+/)`),
or none. -/
def firstDigitRun : List Char → Option (List Char)
  | [] => none
  | c :: cs =>
      if isDigitChar c then some (c :: cs.takeWhile isDigitChar)
      else firstDigitRun cs

/-- Numeric value of a digit run (JS `parseInt(run, 10)`). -/
def digitsVal (l : List Char) : Nat :=
  l.foldl (fun a c => a * 10 + (c.toNat - '0'.toNat)) 0

/-- Gate-number extraction used by the getAllGates sort: the first number
appearing in the name, defaulting to 0. -/
def getGateNum (name : String) : Nat :=
  match firstDigitRun name.data with
  | some ds => digitsVal ds
  | none => 0

/-- Sort order of getAllGates, derived from the source comparator: by
extracted gate number, with alphabetical tiebreak on the name. -/
def gateLE (a b : POI) : Bool :=
  if getGateNum a.name = getGateNum b.name then decide (a.name ≤ b.name)
  else decide (getGateNum a.name < getGateNum b.name)

/-- Translation of `getAllGates()`: the instance guard, the broad "gate"
search, the category filter, and the numeric-then-alphabetical sort. -/
def getAllGates (inst : Option MapInst) : Except String (List POI) :=
  match inst with
  | none => .error "Map instance not initialized"
  | some m =>
      match m.search "gate" with
      | .error _ => .error "Failed to fetch gates"
      | .ok results =>
          let gates := results.filter (fun poi =>
            match poi.category with
            | some c => strContains (strToLower c) "gate"
            | none => false)
          .ok (List.insertionSort (fun a b => gateLE a b = true) gates)

/-- C10: every gate-resolution operation invoked while no live map instance
exists throws the "Map instance not initialized" error — none of them waits
for initialization or returns the null/empty not-found result. -/
theorem gate_ops_require_live_instance :
    (∀ g : String,
        findGate none g = (.error "Map instance not initialized", [])) ∧
      (∀ (k : KioskLocation) (gid : String) (acc : Bool),
        getRouteToGate none k gid acc = .error "Map instance not initialized") ∧
      getAllGates none = .error "Map instance not initialized" :=
  ⟨fun _ => rfl, fun _ _ _ => rfl, rfl⟩

/-- C5 (code bug evidence): findGate issues its query variants sequentially
with per-variant early exit, not concurrently.  With a session whose search
answers the first variant "Gate A1" with a gate match, the call returns that
match after issuing exactly one search query — the remaining three variants
are never issued, contradicting the documented concurrent
all-variants/first-success-wins dispatch. -/
theorem findGate_sequential_single_query_cex :
    findGate (some (MapInst.mk
        (fun q =>
          if q = "Gate A1" then .ok [POI.mk "Gate A1" (some "gate.departures") "f1"]
          else .ok [])
        (fun _ _ _ => .error ())))
        "A1" =
      (.ok (some (POI.mk "Gate A1" (some "gate.departures") "f1")),
        ["Gate A1"]) := by
  rfl

/-
Part 5: GateFinderService.parseFlightNumber.

Source behavior: reject empty input; trim; strip a leading "Flight" word
(`^flight\s+`, ignore-case); replace a leading airline name from a fixed
table with its two-letter code (`^name\s+` replaced by the code plus one
space, table order); finally match the anchored ignore-case pattern
two letters, optional whitespace, optional hyphen, optional whitespace,
one to four digits, and return the uppercased code concatenated with the
digits, or null when the pattern does not match.
-/

/-- JS `String.prototype.trim` on a character list (ASCII whitespace). -/
def trimChars (l : List Char) : List Char :=
  ((l.dropWhile (jsIsSpace ·)).reverse.dropWhile (jsIsSpace ·)).reverse

/-- Letters accepted by the `[A-Z]` class under the ignore-case flag. -/
def isAsciiLetter (c : Char) : Bool :=
  (decide ('A' ≤ c) && decide (c ≤ 'Z')) || (decide ('a' ≤ c) && decide (c ≤ 'z'))

/-- Strip a case-insensitive word followed by at least one whitespace
character from the front of a character list (the regex `^word\s+`),
returning the remainder after the maximal whitespace run, or none if the
pattern does not match there. -/
def stripWordCI (word : List Char) (l : List Char) : Option (List Char) :=
  if (l.take word.length).map Char.toLower = word then
    match l.drop word.length with
    | c :: rest =>
        if jsIsSpace c then some ((c :: rest).dropWhile (jsIsSpace ·))
        else none
    | [] => none
  else none

/-- Airline name-to-code table, in source order. -/
def airlineTable : List (List Char × List Char) :=
  [("american".data, "AA".data), ("delta".data, "DL".data),
   ("united".data, "UA".data), ("southwest".data, "WN".data),
   ("alaska".data, "AS".data), ("jetblue".data, "B6".data),
   ("spirit".data, "NK".data), ("frontier".data, "F9".data)]

/-- One table entry applied to the working string: replace a leading
airline name (plus following whitespace) with the code and one space. -/
def applyAirlineStep (l : List Char) (entry : List Char × List Char) :
    List Char :=
  match stripWordCI entry.1 l with
  | some rest => entry.2 ++ ' ' :: rest
  | none => l

/-- Normalization pipeline of parseFlightNumber before the final pattern
match: trim, strip the leading "Flight" word, apply the airline
replacements in table order. -/
def normalizeFlightInput (input : String) : List Char :=
  let cleaned0 := trimChars input.data
  let cleaned1 :=
    match stripWordCI "flight".data cleaned0 with
    | some r => r
    | none => cleaned0
  airlineTable.foldl applyAirlineStep cleaned1

/-- Optional-hyphen step of the final pattern: split off a single leading
hyphen if present. -/
def flightTail (r1 : List Char) : List Char × List Char :=
  match r1 with
  | '-' :: t => (['-'], t)
  | _ => ([], r1)

/-- Anchored final pattern match of parseFlightNumber: two ASCII letters,
optional whitespace, an optional hyphen, optional whitespace, then one to
four digits reaching the end of the input.  Returns the letter pair and
the digit group. -/
def flightCodeMatch (l : List Char) : Option (List Char × List Char) :=
  match l with
  | a :: b :: rest =>
      if isAsciiLetter a && isAsciiLetter b then
        let r3 := ((flightTail (rest.dropWhile (jsIsSpace ·))).2).dropWhile
          (jsIsSpace ·)
        if !r3.isEmpty && (decide (r3.length ≤ 4) && r3.all isDigitChar) then
          some ([a, b], r3)
        else none
      else none
  | _ => none

/-- Translation of `parseFlightNumber(input)`: empty input is falsy and
rejected; otherwise normalize and run the final anchored match, producing
the uppercased code followed by the digits. -/
def parseFlightNumber (input : String) : Option String :=
  if input = "" then none
  else
    match flightCodeMatch (normalizeFlightInput input) with
    | some (code, ds) => some (String.mk (code.map Char.toUpper ++ ds))
    | none => none

/-- Declarative form of the accepted shape: two ASCII letters, then
whitespace, an optional single hyphen, more whitespace, and one to four
digits ending the input. -/
def matchesCodePattern (l : List Char) : Prop :=
  ∃ (a b : Char) (ws1 hy ws2 ds : List Char),
    l = a :: b :: (ws1 ++ (hy ++ (ws2 ++ ds))) ∧
      isAsciiLetter a = true ∧ isAsciiLetter b = true ∧
      (∀ c ∈ ws1, jsIsSpace c = true) ∧
      (hy = [] ∨ hy = ['-']) ∧
      (∀ c ∈ ws2, jsIsSpace c = true) ∧
      ds ≠ [] ∧ ds.length ≤ 4 ∧ (∀ c ∈ ds, isDigitChar c = true)

theorem flightTail_split (r1 : List Char) :
    (flightTail r1).1 ++ (flightTail r1).2 = r1 ∧
      ((flightTail r1).1 = [] ∨ (flightTail r1).1 = ['-']) := by
  cases r1 with
  | nil => simp [flightTail]
  | cons c t =>
      by_cases hc : c = '-'
      · subst hc; simp [flightTail]
      · constructor
        · show (flightTail (c :: t)).1 ++ (flightTail (c :: t)).2 = c :: t
          unfold flightTail
          split
          · next heq => rw [heq]; rfl
          · rfl
        · show (flightTail (c :: t)).1 = [] ∨ (flightTail (c :: t)).1 = ['-']
          unfold flightTail
          split
          · exact Or.inr rfl
          · exact Or.inl rfl

theorem flightCodeMatch_sound (l : List Char) (pr : List Char × List Char)
    (h : flightCodeMatch l = some pr) : matchesCodePattern l := by
  match l with
  | [] => simp [flightCodeMatch] at h
  | [a] => simp [flightCodeMatch] at h
  | a :: b :: rest =>
      simp only [flightCodeMatch] at h
      by_cases hab : (isAsciiLetter a && isAsciiLetter b) = true
      · rw [if_pos hab] at h
        split at h
        · next hcond =>
            simp only [Bool.and_eq_true, Bool.not_eq_true', decide_eq_true_eq,
              List.all_eq_true] at hcond
            obtain ⟨hne, hlen, hdig⟩ := hcond
            refine ⟨a, b, rest.takeWhile (jsIsSpace ·),
              (flightTail (rest.dropWhile (jsIsSpace ·))).1,
              ((flightTail (rest.dropWhile (jsIsSpace ·))).2).takeWhile
                (jsIsSpace ·),
              ((flightTail (rest.dropWhile (jsIsSpace ·))).2).dropWhile
                (jsIsSpace ·),
              ?_, ?_, ?_, ?_, ?_, ?_, ?_, ?_, ?_⟩
            · rw [List.takeWhile_append_dropWhile,
                (flightTail_split (rest.dropWhile (jsIsSpace ·))).1,
                List.takeWhile_append_dropWhile]
            · exact (Bool.and_eq_true _ _ |>.mp hab).1
            · exact (Bool.and_eq_true _ _ |>.mp hab).2
            · intro c hc; exact List.mem_takeWhile_imp hc
            · exact (flightTail_split (rest.dropWhile (jsIsSpace ·))).2
            · intro c hc; exact List.mem_takeWhile_imp hc
            · simpa [List.isEmpty_iff] using hne
            · exact hlen
            · exact hdig
        · exact absurd h (by simp)
      · rw [if_neg hab] at h
        exact absurd h (by simp)

theorem flight_no_pattern_no_result (input : String)
    (h : ¬ matchesCodePattern (normalizeFlightInput input)) :
    parseFlightNumber input = none := by
  unfold parseFlightNumber
  by_cases he : input = ""
  · simp [he]
  · rw [if_neg he]
    cases hm : flightCodeMatch (normalizeFlightInput input) with
    | none => rfl
    | some pr => exact absurd (flightCodeMatch_sound _ pr hm) h

/-- C8: parseFlightNumber is total with a null-on-reject contract, the
equivalent valid forms normalize to the same canonical string, and every
input whose normalized form does not match the two-letter-code plus one-to
four-digit pattern yields null. -/
theorem parseFlightNumber_contract :
    parseFlightNumber "AA123" = some "AA123" ∧
      parseFlightNumber "AA 123" = some "AA123" ∧
      parseFlightNumber "AA-123" = some "AA123" ∧
      parseFlightNumber "American 123" = some "AA123" ∧
      parseFlightNumber "not a flight" = none ∧
      ∀ input : String, ¬ matchesCodePattern (normalizeFlightInput input) →
        parseFlightNumber input = none := by
  refine ⟨rfl, rfl, rfl, rfl, rfl, ?_⟩
  exact fun input h => flight_no_pattern_no_result input h

/-- C8 witness: the universal part of the contract applied at the concrete
input "not a flight", whose normalized form provably does not match the
pattern (its final character is not a digit). -/
theorem parseFlightNumber_contract_witness :
    ¬ matchesCodePattern (normalizeFlightInput "not a flight") ∧
      parseFlightNumber "not a flight" = none := by
  have hnp : ¬ matchesCodePattern (normalizeFlightInput "not a flight") := by
    rintro ⟨a, b, ws1, hy, ws2, ds, heq, _, _, _, _, _, hne, _, hdig⟩
    have h1 : (normalizeFlightInput "not a flight").getLast? = some 't' := by
      rfl
    rw [heq] at h1
    have h2 : a :: b :: (ws1 ++ (hy ++ (ws2 ++ ds))) =
        (a :: b :: (ws1 ++ hy ++ ws2)) ++ ds := by simp
    rw [h2, List.getLast?_append] at h1
    rw [List.getLast?_eq_getLast ds hne] at h1
    have hlast : ds.getLast hne = 't' := by
      simpa [Option.or] using h1
    have hd := hdig _ (List.getLast_mem hne)
    rw [hlast] at hd
    exact absurd hd (by decide)
  exact ⟨hnp, parseFlightNumber_contract.2.2.2.2.2 "not a flight" hnp⟩

/-
Part 6: BCBPParser.parse (boarding-pass decoder).

Source behavior: reject falsy input or input shorter than 60 characters;
reject a first character other than M or O; reject when
`parseInt(rawData.charAt(1), 10)` is NaN or outside 1..4; then slice the
fixed-width fields, convert the Julian date (rendering "Unknown" when its
parseInt fails), best-effort extract a gate token with the pattern
one optional uppercase letter, one to three digits, one optional uppercase
letter from the conditional section, derive the boarding group from the
passenger-status character, and assemble the record.  The whole body sits
in a try/catch whose catch returns null, so the function never throws.
-/

/-- Numeric value of the maximal leading digit run (the digit-consuming
core of JS `parseInt`), or none when no leading digit exists. -/
def digitsPrefixVal (l : List Char) : Option Nat :=
  let ds := l.takeWhile isDigitChar
  if ds.isEmpty then none
  else some (ds.foldl (fun a c => a * 10 + (c.toNat - '0'.toNat)) 0)

/-- JS `parseInt(s, 10)`: skip leading whitespace, read an optional sign
and then the maximal digit prefix; NaN (none) when no digit follows. -/
def jsParseInt (l : List Char) : Option Int :=
  match l.dropWhile (jsIsSpace ·) with
  | [] => none
  | c :: t =>
      if c = '+' then (digitsPrefixVal t).map (fun n => (n : Int))
      else if c = '-' then (digitsPrefixVal t).map (fun n => -(n : Int))
      else (digitsPrefixVal (c :: t)).map (fun n => (n : Int))

/-- Julian-date conversion: "Unknown" when the three-character field does
not parse as a number, otherwise the rendered calendar date.  The rendering
(current year plus en-US locale formatting) is environment input and enters
as the `fmtDate` parameter. -/
def parseJulianDate (fmtDate : Int → String) (jd : List Char) : String :=
  match jsParseInt jd with
  | none => "Unknown"
  | some d => fmtDate d

/-- JS `substring(a, b)` on a character list (with in-range arguments, as
the parser uses once the length check has passed). -/
def jsSubstring (l : List Char) (a b : Nat) : List Char :=
  (l.drop a).take (b - a)

/-- Uppercase ASCII letters, the `[A-Z]` class of the gate pattern. -/
def isUpperAlpha (c : Char) : Bool :=
  decide ('A' ≤ c) && decide (c ≤ 'Z')

/-- Attempt of the gate pattern (optional uppercase letter, one to three
digits greedily, optional trailing uppercase letter) at the head of the
list, with the JS backtracking order: the leading letter alternative is
tried first, and on its failure the empty alternative needs a digit at the
same position. -/
def gateMatchAt (l : List Char) : Option (List Char) :=
  match l with
  | [] => none
  | c :: rest =>
      if isUpperAlpha c then
        let ds := (rest.takeWhile isDigitChar).take 3
        if ds.isEmpty then none
        else
          match rest.drop ds.length with
          | c2 :: _ => if isUpperAlpha c2 then some (c :: ds ++ [c2])
              else some (c :: ds)
          | [] => some (c :: ds)
      else
        let ds := (l.takeWhile isDigitChar).take 3
        if ds.isEmpty then none
        else
          match l.drop ds.length with
          | c2 :: _ => if isUpperAlpha c2 then some (ds ++ [c2])
              else some (ds)
          | [] => some ds

/-- Leftmost match of the gate pattern (JS `String.prototype.match` with a
non-global regex): try each start position from the left. -/
def gateFirstMatch : List Char → Option (List Char)
  | [] => none
  | c :: rest =>
      match gateMatchAt (c :: rest) with
      | some m => some m
      | none => gateFirstMatch rest

/-- Parsed boarding-pass record (BoardingPassData). -/
structure BoardingPassData where
  flightNumber : String
  airline : String
  gate : Option String
  departureTime : String
  passengerName : String
  seatNumber : Option String
  boardingGroup : Option String
  boardingTime : Option String
  barcode : String
  confirmationCode : String
deriving DecidableEq, Repr

/-- Translation of `BCBPParser.parse(rawData)`. -/
def bcbpParse (fmtDate : Int → String) (rawData : String) :
    Option BoardingPassData :=
  let l := rawData.data
  if rawData = "" ∨ l.length < 60 then none
  else
    let formatCode := l.getD 0 ' '
    if formatCode ≠ 'M' ∧ formatCode ≠ 'O' then none
    else
      match jsParseInt [l.getD 1 ' '] with
      | none => none
      | some numLegs =>
          if numLegs < 1 ∨ numLegs > 4 then none
          else
            let passengerName := trimChars (jsSubstring l 2 22)
            let confirmationCode := trimChars (jsSubstring l 23 30)
            let airline := trimChars (jsSubstring l 36 39)
            let flightNumber := trimChars (jsSubstring l 39 44)
            let julianDate := jsSubstring l 44 47
            let departureTime := parseJulianDate fmtDate julianDate
            let seatNumber := trimChars (jsSubstring l 48 52)
            let passengerStatus := l.getD 57 ' '
            let gate :=
              if l.length > 58 then (gateFirstMatch (l.drop 58)).map String.mk
              else none
            let boardingGroup :=
              if l.length > 58 ∧ '1' ≤ passengerStatus ∧ passengerStatus ≤ '9'
              then some ("Group " ++ String.mk [passengerStatus])
              else none
            some
              { flightNumber := String.mk (airline ++ flightNumber)
                airline := String.mk airline
                gate := gate
                departureTime := departureTime
                passengerName := String.mk (passengerName.map
                  (fun c => if c = '/' then ' ' else c))
                seatNumber :=
                  if seatNumber.isEmpty then none
                  else some (String.mk seatNumber)
                boardingGroup := boardingGroup
                boardingTime := none
                barcode := rawData
                confirmationCode := String.mk confirmationCode }

theorem space_not_digit (c : Char) (h : jsIsSpace c = true) :
    isDigitChar c = false := by
  simp only [jsIsSpace, Bool.or_eq_true, beq_iff_eq] at h
  rcases h with ((((h | h) | h) | h) | h) | h <;> subst h <;> decide

theorem jsParseInt_single (c : Char) :
    jsParseInt [c] =
      if isDigitChar c then some ((c.toNat - '0'.toNat : Nat) : Int)
      else none := by
  unfold jsParseInt
  by_cases hws : jsIsSpace c = true
  · have hd := space_not_digit c hws
    simp [List.dropWhile_cons, hws, hd]
  · simp only [List.dropWhile_cons, hws, if_false, Bool.false_eq_true,
      List.dropWhile_nil]
    by_cases hp : c = '+'
    · subst hp; simp [digitsPrefixVal, isDigitChar]
    · by_cases hm : c = '-'
      · subst hm; simp [digitsPrefixVal, isDigitChar]
      · rw [if_neg hp, if_neg hm]
        by_cases hd : isDigitChar c = true
        · simp [digitsPrefixVal, List.takeWhile, hd]
        · simp [digitsPrefixVal, List.takeWhile, hd]

/-- C9: the boarding-pass decoder parse is total and rejects malformed
input with none rather than an exception: every string shorter than 60
characters, or whose first character is neither M nor O, or whose declared
leg count (second character) is not a digit in 1..4, parses to none. -/
theorem bcbp_parse_rejects_malformed (fmtDate : Int → String) (s : String)
    (h : s.length < 60 ∨
      (s.data.getD 0 ' ' ≠ 'M' ∧ s.data.getD 0 ' ' ≠ 'O') ∨
      s.data.getD 1 ' ' ∉ (['1', '2', '3', '4'] : List Char)) :
    bcbpParse fmtDate s = none := by
  unfold bcbpParse
  by_cases hlen : (s = "" ∨ s.data.length < 60)
  · rw [if_pos hlen]
  · rw [if_neg hlen]
    rcases h with h | h | h
    · exact absurd (Or.inr h) hlen
    · rw [if_pos h]
    · by_cases hfc : (s.data.getD 0 ' ' ≠ 'M' ∧ s.data.getD 0 ' ' ≠ 'O')
      · rw [if_pos hfc]
      · rw [if_neg hfc]
        rcases hjs : jsParseInt [s.data.getD 1 ' '] with _ | numLegs
        · simp only [hjs]
        · simp only [hjs]
          rw [jsParseInt_single] at hjs
          by_cases hd : isDigitChar (s.data.getD 1 ' ') = true
          · rw [if_pos hd] at hjs
            have hval := Option.some.inj hjs
            simp only [isDigitChar, Bool.or_eq_true, beq_iff_eq] at hd
            rcases hd with
              (((((((((hc | hc) | hc) | hc) | hc) | hc) | hc) | hc) | hc) | hc) <;>
              first
                | exact absurd (by rw [hc]; decide) h
                | rw [if_pos (by rw [← hval, hc]; decide)]
          · rw [if_neg hd] at hjs
            exact absurd hjs (by simp)

/-- C9 witness: the rejection theorem applied at the empty string (shorter
than 60 characters) with a concrete date renderer. -/
theorem bcbp_parse_rejects_malformed_witness :
    ("".length < 60) ∧ bcbpParse (fun _ => "Feb 14, 2026") "" = none :=
  ⟨by decide,
    bcbp_parse_rejects_malformed (fun _ => "Feb 14, 2026") ""
      (Or.inl (by decide))⟩

/-
Part 7: DirectoryService.getPOIsByCategory (POI cache and category filter).

Source behavior: look up the tab key in `poiCache`; if present and the
cache TTL (24 h from `cacheTimestamp`) has not expired, return the memoized
list immediately.  Otherwise read the base cache `allPOIsCache` (error when
missing), filter it by case-insensitive category-prefix match against the
given prefixes (a POI without a category never matches), sort a copy with
the comparator "kiosk-floor POIs first, then ascending precomputed
distanceFromKiosk", memoize the sorted list under the tab key, and return
it.  Distances are precomputed at cache-population time and only compared
here.
-/

/-- Cached POI as the directory sees it: an SDKPOI augmented with the
precomputed `distanceFromKiosk`. -/
structure DirectoryPOI where
  name : String
  category : Option String
  floorId : String
  distanceFromKiosk : Int
deriving DecidableEq, Repr

/-- Cache TTL from the source: 24 hours in milliseconds. -/
def CACHE_TTL : Nat := 24 * 60 * 60 * 1000

/-- Directory-service cache state: the base POI cache, the per-tab memo
map, and the population timestamp. -/
structure DirState where
  allPOIsCache : Option (List DirectoryPOI)
  poiCache : List (String × List DirectoryPOI)
  cacheTimestamp : Option Nat
deriving DecidableEq, Repr

/-- Translation of `isCacheValid()`: a timestamp exists and lies within the
TTL of the current time. -/
def isCacheValid (now : Nat) (st : DirState) : Bool :=
  match st.cacheTimestamp with
  | none => false
  | some ts => decide (now - ts < CACHE_TTL)

/-- Case-insensitive category-prefix match from the source: the lowercased
category starts with the lowercase of some prefix; a POI with no category
is excluded. -/
def categoryMatches (pfxs : List String) (poi : DirectoryPOI) : Bool :=
  match poi.category with
  | none => false
  | some c => pfxs.any (fun p => (strToLower p).data.isPrefixOf
      (strToLower c).data)

/-- Sort order derived from the source comparator: kiosk-floor POIs before
all others, then ascending precomputed distance. -/
def dirSortLE (kioskFloor : String) (a b : DirectoryPOI) : Bool :=
  if decide (a.floorId = kioskFloor) = decide (b.floorId = kioskFloor) then
    decide (a.distanceFromKiosk ≤ b.distanceFromKiosk)
  else decide (a.floorId = kioskFloor)

/-- Result of one getPOIsByCategory call: the returned list, the post
state, and whether the memoized early return was taken (`fromMemo`). -/
structure DirQueryResult where
  result : List DirectoryPOI
  state : DirState
  fromMemo : Bool
deriving DecidableEq, Repr

/-- Filter-sort-memoize path of getPOIsByCategory (taken when no valid
memo entry exists for the tab key). -/
def freshCategoryQuery (kioskFloor categoryKey : String)
    (pfxs : List String) (st : DirState) : Except String DirQueryResult :=
  match st.allPOIsCache with
  | none => .error "DirectoryService not initialized"
  | some pois =>
      let filtered := pois.filter (categoryMatches pfxs)
      let sorted := List.insertionSort
        (fun a b => dirSortLE kioskFloor a b = true) filtered
      .ok ⟨sorted, { st with poiCache := (categoryKey, sorted) :: st.poiCache },
        false⟩

/-- Translation of `getPOIsByCategory(categoryKey, prefixes)`: the memo
lookup with TTL check, then the filter-sort-memoize path. -/
def getPOIsByCategory (kioskFloor : String) (now : Nat) (categoryKey : String)
    (pfxs : List String) (st : DirState) : Except String DirQueryResult :=
  match st.poiCache.lookup categoryKey with
  | some cached =>
      if isCacheValid now st then .ok ⟨cached, st, true⟩
      else freshCategoryQuery kioskFloor categoryKey pfxs st
  | none => freshCategoryQuery kioskFloor categoryKey pfxs st

/-- Claim-side reading of "on the kiosk floor". -/
def onKioskFloor (kioskFloor : String) (p : DirectoryPOI) : Prop :=
  p.floorId = kioskFloor

/-- Claim-side ordering: kiosk-floor POIs strictly before the others, and
within the same group ascending precomputed distance. -/
def dirClaimOrder (kioskFloor : String) (a b : DirectoryPOI) : Prop :=
  (onKioskFloor kioskFloor a ∧ ¬ onKioskFloor kioskFloor b) ∨
    ((onKioskFloor kioskFloor a ↔ onKioskFloor kioskFloor b) ∧
      a.distanceFromKiosk ≤ b.distanceFromKiosk)

theorem dirSortLE_implies_claimOrder (kioskFloor : String)
    (a b : DirectoryPOI) (h : dirSortLE kioskFloor a b = true) :
    dirClaimOrder kioskFloor a b := by
  by_cases ha : a.floorId = kioskFloor
  · by_cases hb : b.floorId = kioskFloor
    · have h' : a.distanceFromKiosk ≤ b.distanceFromKiosk := by
        simpa [dirSortLE, ha, hb] using h
      exact Or.inr ⟨by simp [onKioskFloor, ha, hb], h'⟩
    · exact Or.inl ⟨ha, hb⟩
  · by_cases hb : b.floorId = kioskFloor
    · exact absurd h (by simp [dirSortLE, ha, hb])
    · have h' : a.distanceFromKiosk ≤ b.distanceFromKiosk := by
        simpa [dirSortLE, ha, hb] using h
      exact Or.inr ⟨by simp [onKioskFloor, ha, hb], h'⟩

theorem dirSortLE_total (kioskFloor : String) (a b : DirectoryPOI) :
    dirSortLE kioskFloor a b = true ∨ dirSortLE kioskFloor b a = true := by
  by_cases ha : a.floorId = kioskFloor <;>
    by_cases hb : b.floorId = kioskFloor <;>
      simp [dirSortLE, ha, hb] <;> omega

theorem dirSortLE_trans (kioskFloor : String) (a b c : DirectoryPOI)
    (h1 : dirSortLE kioskFloor a b = true)
    (h2 : dirSortLE kioskFloor b c = true) :
    dirSortLE kioskFloor a c = true := by
  by_cases ha : a.floorId = kioskFloor <;>
    by_cases hb : b.floorId = kioskFloor <;>
      by_cases hc : c.floorId = kioskFloor <;>
        simp_all [dirSortLE] <;> omega

/-- C7: on a populated base cache with no memo entry, getPOIsByCategory
returns exactly the POIs whose lowercased category starts with the
lowercase of some given prefix (POIs without a category excluded), sorted
with kiosk-floor POIs before all others and ascending precomputed distance
within each group; a second call with the same tab key before the TTL
expires returns the memoized list through the early memo return, without
refiltering. -/
theorem getPOIsByCategory_contract (kioskFloor : String)
    (pois : List DirectoryPOI) (ts now now2 : Nat) (key : String)
    (pfxs : List String) (hvalid2 : now2 - ts < CACHE_TTL) :
    ∃ r : DirQueryResult,
      getPOIsByCategory kioskFloor now key pfxs ⟨some pois, [], some ts⟩ =
          .ok r ∧
        r.fromMemo = false ∧
        r.result.Perm (pois.filter (categoryMatches pfxs)) ∧
        List.Pairwise (dirClaimOrder kioskFloor) r.result ∧
        getPOIsByCategory kioskFloor now2 key pfxs r.state =
          .ok ⟨r.result, r.state, true⟩ := by
  refine ⟨⟨List.insertionSort (fun a b => dirSortLE kioskFloor a b = true)
      (pois.filter (categoryMatches pfxs)),
    ⟨some pois,
      [(key, List.insertionSort (fun a b => dirSortLE kioskFloor a b = true)
        (pois.filter (categoryMatches pfxs)))], some ts⟩, false⟩,
    rfl, rfl, ?_, ?_, ?_⟩
  · exact List.perm_insertionSort _ _
  · have hs := @List.sorted_insertionSort DirectoryPOI
      (fun a b => dirSortLE kioskFloor a b = true) _
      ⟨fun a b => dirSortLE_total kioskFloor a b⟩
      ⟨fun a b c h1 h2 => dirSortLE_trans kioskFloor a b c h1 h2⟩
      (pois.filter (categoryMatches pfxs))
    exact hs.imp (fun h => dirSortLE_implies_claimOrder kioskFloor _ _ h)
  · simp [getPOIsByCategory, List.lookup_cons, isCacheValid, hvalid2]

/-- C7 witness: the contract applied at a concrete populated cache (three
POIs, one without a category), the dine prefixes, and a second call 1000 ms
after population. -/
theorem getPOIsByCategory_contract_witness :
    ((1000 : Nat) - 0 < CACHE_TTL) ∧
      ∃ r : DirQueryResult,
        getPOIsByCategory "F1" 0 "dine" ["eat.", "cafe."]
            ⟨some [⟨"Cafe A", some "eat.cafe", "F1", 50⟩,
              ⟨"Cafe B", some "Eat.snack", "F2", 10⟩,
              ⟨"Unnamed", none, "F1", 5⟩], [], some 0⟩ = .ok r ∧
          r.fromMemo = false ∧
          r.result.Perm
            ([⟨"Cafe A", some "eat.cafe", "F1", 50⟩,
              ⟨"Cafe B", some "Eat.snack", "F2", 10⟩,
              ⟨"Unnamed", none, "F1", 5⟩].filter
                (categoryMatches ["eat.", "cafe."])) ∧
          List.Pairwise (dirClaimOrder "F1") r.result ∧
          getPOIsByCategory "F1" 1000 "dine" ["eat.", "cafe."] r.state =
            .ok ⟨r.result, r.state, true⟩ :=
  ⟨by decide,
    getPOIsByCategory_contract "F1"
      [⟨"Cafe A", some "eat.cafe", "F1", 50⟩,
        ⟨"Cafe B", some "Eat.snack", "F2", 10⟩,
        ⟨"Unnamed", none, "F1", 5⟩] 0 0 1000 "dine" ["eat.", "cafe."]
      (by decide)⟩

end Wayfinder
